import Mathlib

/-!
Shallow embedding of the client-side reconciliation engine of the
wof-games/rps-mcp repository: the secret-commitment store, the
commit/reveal/timeout logic of `RPSAgent` (src agent module), the
finalization branches of `playMatch`, and the outcome resolver
`determineMatchWinner` (src read-helpers module).  Enumerations and
sentinel constants are translated verbatim from the source; stateful
methods become explicit state-passing functions over the same data.
-/

namespace RPS

/-- Sentinel for an absent player address (the source's `ZERO_ADDRESS`). -/
def ZERO_ADDRESS : String := "0x0000000000000000000000000000000000000000"

/-- Sentinel for an absent commitment hash (the source's `ZERO_BYTES32`). -/
def ZERO_BYTES32 : String :=
  "0x0000000000000000000000000000000000000000000000000000000000000000"

/-- Match lifecycle states; the source encodes them as 0/1/2/3. -/
inductive MatchState
  | WAITING
  | ACTIVE
  | COMPLETE
  | CANCELLED
deriving DecidableEq, Repr

/-- Round phases; the source encodes them as 0/1/2. -/
inductive RoundPhase
  | COMMIT
  | REVEAL
  | COMPLETE
deriving DecidableEq, Repr

/-- Display names of choice codes 0..3, the source's `CHOICE_NAMES` array. -/
def CHOICE_NAMES : List String := ["None", "Rock", "Paper", "Scissors"]

/-- Wins needed to take the match, the source's `WINS_REQUIRED` constant. -/
def WINS_REQUIRED : Nat := 3

/-- Read-only match snapshot as returned by `getMatch` (ten tuple fields).
Addresses are strings, amounts and counters are naturals. -/
structure MatchSnapshot where
  player1 : String
  player2 : String
  entryFee : Nat
  pot : Nat
  state : MatchState
  winsP1 : Nat
  winsP2 : Nat
  currentRound : Nat
  createdAt : Nat
  startedAt : Nat
deriving DecidableEq, Repr

/-- Read-only round snapshot as returned by `getRound` (seven tuple fields).
`commitP1`/`commitP2` are commitment-hash strings (`ZERO_BYTES32` = absent);
`choiceP1`/`choiceP2` are choice codes (0 = None, not yet revealed). -/
structure RoundSnapshot where
  commitP1 : String
  commitP2 : String
  choiceP1 : Nat
  choiceP2 : Nat
  phase : RoundPhase
  phaseDeadline : Nat
  winner : String
deriving DecidableEq, Repr

/-- The four raw fragments of a round that `determineMatchWinner` receives as
its optional `lastRound` argument. -/
structure LastRoundFrag where
  commitP1 : String
  commitP2 : String
  choiceP1 : Nat
  choiceP2 : Nat
deriving DecidableEq, Repr

/-- The five match fields `determineMatchWinner` reads from its `match`
argument. -/
structure MatchCore where
  player1 : String
  player2 : String
  state : MatchState
  winsP1 : Nat
  winsP2 : Nat
deriving DecidableEq, Repr

/-- Final fallback of `determineMatchWinner`: compare round-win counts
directly (the code after the `if (lastRound)` block). -/
def fallbackWinner (m : MatchCore) : Option String :=
  if m.winsP1 > m.winsP2 then some m.player1
  else if m.winsP2 > m.winsP1 then some m.player2
  else none

/-- The body of `determineMatchWinner`'s `if (lastRound)` block: the
forfeit reconstruction from the last round's commit/reveal fragments.
Returns `none` exactly when that block falls through to the fallback. -/
def lastRoundWinner (m : MatchCore) (lr : LastRoundFrag) : Option String :=
  let p1Committed := lr.commitP1 ≠ ZERO_BYTES32
  let p2Committed := lr.commitP2 ≠ ZERO_BYTES32
  if p1Committed ∧ ¬ p2Committed then some m.player1
  else if p2Committed ∧ ¬ p1Committed then some m.player2
  else if p1Committed ∧ p2Committed then
    let p1Revealed := lr.choiceP1 > 0
    let p2Revealed := lr.choiceP2 > 0
    if p1Revealed ∧ ¬ p2Revealed then some m.player1
    else if p2Revealed ∧ ¬ p1Revealed then some m.player2
    else none
  else none

/-- `determineMatchWinner` from the read-helpers module: the true winner of a
completed match, handling normal wins and forfeit/timeout reconstruction.
In the source the branches inside `if (lastRound)` return directly and
otherwise control falls through to the win-count fallback; `Option.orElse`
models that fall-through. -/
def determineMatchWinner (m : MatchCore) (lastRound : Option LastRoundFrag) :
    Option String :=
  if m.state ≠ MatchState.COMPLETE then none
  else if m.winsP1 ≥ WINS_REQUIRED then some m.player1
  else if m.winsP2 ≥ WINS_REQUIRED then some m.player2
  else
    match lastRound with
    | some lr => (lastRoundWinner m lr).orElse fun _ => fallbackWinner m
    | none => fallbackWinner m

/-- `true` iff the fragment data lets `lastRoundWinner` name a winner:
exactly one side committed, or both committed and exactly one revealed. -/
def resolvableFrag (fr : LastRoundFrag) : Bool :=
  (decide (fr.commitP1 ≠ ZERO_BYTES32) != decide (fr.commitP2 ≠ ZERO_BYTES32))
    || (decide (fr.commitP1 ≠ ZERO_BYTES32)
        && decide (fr.commitP2 ≠ ZERO_BYTES32)
        && (decide (fr.choiceP1 > 0) != decide (fr.choiceP2 > 0)))

/-- Lifts `resolvableFrag` to the optional `lastRound` argument. -/
def fragResolves : Option LastRoundFrag → Bool
  | none => false
  | some fr => resolvableFrag fr

/-- A persisted secret: the committed choice code and the 32-byte random
blinding value (kept as a natural number below `2 ^ 256`). -/
structure StoredSecret where
  choice : Nat
  secret : Nat
deriving DecidableEq, Repr

/-- The secret store keyed by the string `"chainId-matchId-round"`; the
source keeps it as a string-keyed `Map` persisted to disk on mutation. -/
def SecretStore : Type := String → Option StoredSecret

/-- The commitment key the agent builds for a round. -/
def mkKey (chainId matchId round : Nat) : String :=
  toString chainId ++ "-" ++ toString matchId ++ "-" ++ toString round

/-- Insert (or replace) a binding in the store. -/
def setSecret (store : SecretStore) (key : String) (v : StoredSecret) :
    SecretStore :=
  fun k => if k = key then some v else store k

/-- Remove a binding from the store. -/
def delSecret (store : SecretStore) (key : String) : SecretStore :=
  fun k => if k = key then none else store k

/-- Big-endian byte expansion of `v` into exactly `n` bytes, dropping bits
above `2 ^ (8 * n)` the way fixed-width packing does. -/
def beBytes : Nat → Nat → List Nat
  | 0, _ => []
  | n + 1, v => beBytes n (v / 256) ++ [v % 256]

/-- Recompose a big-endian byte list into a natural number. -/
def bytesToNat (l : List Nat) : Nat :=
  l.foldl (fun acc b => acc * 256 + b) 0

/-- `encodePacked(["uint8", "bytes32"], [choice, secret])`: the tight
packing of the 8-bit choice code directly followed by the 32-byte blinding
value, with no padding between them. -/
def encodePackedUint8Bytes32 (choice secret : Nat) : List Nat :=
  (choice % 256) :: beBytes 32 secret

/-- Effect of one `RPSAgent.commit` call on the secret store, together with
the (choice, secret) pair the submitted commitment hash was computed over.
`keccak` abstracts the external Keccak-256 primitive (imported from the
viem library in the source); `fresh` is the randomly generated 32-byte
secret used only when no secret is stored for `key` yet.  In the source the
fresh secret is persisted before the ledger write is sent, so the returned
store is what survives even if the transaction later fails. -/
structure CommitEffect where
  store : SecretStore
  usedChoice : Nat
  usedSecret : Nat
  commitment : Nat

/-- The store/commitment logic of `RPSAgent.commit`: reuse a stored secret
verbatim when one exists for the key (discarding the caller's `choice` and
the fresh randomness), otherwise persist the new pair before submitting. -/
def commitStep (keccak : List Nat → Nat) (store : SecretStore) (key : String)
    (choice fresh : Nat) : CommitEffect :=
  match store key with
  | some existing =>
    { store := store
      usedChoice := existing.choice
      usedSecret := existing.secret
      commitment := keccak
        (encodePackedUint8Bytes32 existing.choice existing.secret) }
  | none =>
    { store := setSecret store key ⟨choice, fresh⟩
      usedChoice := choice
      usedSecret := fresh
      commitment := keccak (encodePackedUint8Bytes32 choice fresh) }

/-- Outcome of the network part of a reveal: the write (or its receipt
wait) threw, the receipt reported non-success (the code then throws), or
the receipt confirmed success. -/
inductive NetResult
  | threw
  | failed
  | success
deriving DecidableEq, Repr

/-- Observable effect of one `RPSAgent.reveal` call: whether the ledger
write was attempted, whether the call completed without throwing, and the
resulting secret store. -/
structure RevealEffect where
  callMade : Bool
  ok : Bool
  store : SecretStore

/-- The store/error logic of `RPSAgent.reveal`: a missing secret throws
before any ledger write; a failed or throwing write leaves the store
untouched; the stored secret is deleted only after the receipt confirms
success. -/
def revealStep (store : SecretStore) (key : String) (net : NetResult) :
    RevealEffect :=
  match store key with
  | none => { callMade := false, ok := false, store := store }
  | some _ =>
    match net with
    | .threw => { callMade := true, ok := false, store := store }
    | .failed => { callMade := true, ok := false, store := store }
    | .success => { callMade := true, ok := true, store := delSecret store key }

/-- What one iteration of the `waitForPhase` polling loop decides to do. -/
inductive WaitAction
  | matchEnded
  | phaseReached
  | claimTimeout
  | keepPolling
deriving DecidableEq, Repr

/-- One iteration of `RPSAgent.waitForPhase`'s loop body, as a function of
the freshly read match snapshot, round snapshot, ledger block timestamp and
the target phase: report the match over, report the target phase reached,
attempt a timeout claim, or sleep and poll again. -/
def waitForPhaseStep (m : MatchSnapshot) (round : RoundSnapshot)
    (blockTimestamp : Nat) (targetPhase : RoundPhase) : WaitAction :=
  if m.state = MatchState.COMPLETE ∨ m.state = MatchState.CANCELLED then
    WaitAction.matchEnded
  else if round.phase = targetPhase then WaitAction.phaseReached
  else if round.phaseDeadline > 0 ∧ blockTimestamp > round.phaseDeadline then
    WaitAction.claimTimeout
  else WaitAction.keepPolling

/-- One entry of the reconstructed round history. -/
structure RoundResult where
  round : Nat
  myChoice : String
  opponentChoice : String
  winner : String
deriving DecidableEq, Repr

/-- Final score from the local player's perspective. -/
structure Score where
  player : Nat
  opponent : Nat
deriving DecidableEq, Repr

/-- The structured result `playMatch` returns. -/
structure MatchResult where
  matchId : Nat
  won : Bool
  score : Score
  rounds : List RoundResult
  prize : String
  opponentAddress : String
deriving DecidableEq, Repr

/-- Two-digit rendering of a value below 100. -/
def pad2 (n : Nat) : String :=
  if n < 10 then "0" ++ toString n else toString n

/-- `formatUsdc`: renders a micro-USDC amount with two decimals.  The
source computes `(Number(amount) / 1e6).toFixed(2)` through double
arithmetic; this embedding performs the same rounding exactly on the
integer amount (half-up to a cent), which agrees at the magnitudes the
client handles.  No verified claim inspects this rendering. -/
def formatUsdc (amount : Nat) : String :=
  let cents := (amount + 5000) / 10000
  toString (cents / 100) ++ "." ++ pad2 (cents % 100)

/-- One step of `playMatch`'s history-rebuild loop: read round `r` through
the ledger oracle `getRoundAt` (`none` models a throwing read, which the
source's `try/catch` skips) and keep it only when both sides show a
non-None revealed choice. -/
def roundEntry (selfAddr : String) (isPlayer1 : Bool)
    (getRoundAt : Nat → Option RoundSnapshot) (r : Nat) : Option RoundResult :=
  match getRoundAt r with
  | none => none
  | some rd =>
    if rd.choiceP1 > 0 ∧ rd.choiceP2 > 0 then
      some
        { round := r
          myChoice :=
            (CHOICE_NAMES.getD (if isPlayer1 then rd.choiceP1 else rd.choiceP2) "")
          opponentChoice :=
            (CHOICE_NAMES.getD (if isPlayer1 then rd.choiceP2 else rd.choiceP1) "")
          winner :=
            if rd.winner = ZERO_ADDRESS then "Draw"
            else if rd.winner.toLower = selfAddr.toLower then "You"
            else "Opponent" }
    else none

/-- `playMatch`'s round-history reconstruction on the COMPLETE path: visit
round indices 1 to `currentRound` in order and keep the completed ones. -/
def buildFullRounds (selfAddr : String) (isPlayer1 : Bool)
    (getRoundAt : Nat → Option RoundSnapshot) (currentRound : Nat) :
    List RoundResult :=
  (List.range' 1 currentRound).filterMap (roundEntry selfAddr isPlayer1 getRoundAt)

/-- Whether the rebuild loop keeps round `r`: the read succeeds and both
revealed choices are non-None. -/
def keptRound (getRoundAt : Nat → Option RoundSnapshot) (r : Nat) : Bool :=
  match getRoundAt r with
  | none => false
  | some rd => decide (rd.choiceP1 > 0 ∧ rd.choiceP2 > 0)

/-- The COMPLETE branch of `playMatch`: recompute the win decision, the
prize and the reconstructed round history from the final snapshot. -/
def finalizeComplete (selfAddr : String) (matchId : Nat) (isPlayer1 : Bool)
    (claimedTimeout : Bool) (m : MatchSnapshot)
    (getRoundAt : Nat → Option RoundSnapshot) : MatchResult :=
  let myWins := if isPlayer1 then m.winsP1 else m.winsP2
  let oppWins := if isPlayer1 then m.winsP2 else m.winsP1
  let iWon := claimedTimeout || decide (myWins > oppWins)
  let originalPot := m.entryFee * 2
  let prize := if iWon then formatUsdc (originalPot * 98 / 100) else "0.00"
  { matchId := matchId
    won := iWon
    score := { player := myWins, opponent := oppWins }
    rounds := buildFullRounds selfAddr isPlayer1 getRoundAt m.currentRound
    prize := prize ++ " USDC"
    opponentAddress := if isPlayer1 then m.player2 else m.player1 }

/-- The CANCELLED branch of `playMatch`: a zero-score, zero-prize outcome
carrying the locally accumulated round results. -/
def cancelledResult (matchId : Nat) (roundResults : List RoundResult) :
    MatchResult :=
  { matchId := matchId
    won := false
    score := { player := 0, opponent := 0 }
    rounds := roundResults
    prize := "0.00 USDC (refunded)"
    opponentAddress := "N/A" }

/-- The terminal dispatch of `playMatch`'s main loop: on a COMPLETE
snapshot return the finalized outcome, on a CANCELLED snapshot the
zero-score outcome, and otherwise (`none`) keep looping. -/
def playMatchTerminal (selfAddr : String) (matchId : Nat) (isPlayer1 : Bool)
    (claimedTimeout : Bool) (roundResults : List RoundResult)
    (getRoundAt : Nat → Option RoundSnapshot) (m : MatchSnapshot) :
    Option MatchResult :=
  if m.state = MatchState.COMPLETE then
    some (finalizeComplete selfAddr matchId isPlayer1 claimedTimeout m getRoundAt)
  else if m.state = MatchState.CANCELLED then
    some (cancelledResult matchId roundResults)
  else none

/-! ## Theorems -/

/-- If the fragment data cannot name a forfeit winner (not exactly one
committed, and not both-committed-with-exactly-one-revealed), the
`if (lastRound)` block of `determineMatchWinner` falls through. -/
theorem lastRoundWinner_none_of_not_resolvable (m : MatchCore)
    (fr : LastRoundFrag) (h : resolvableFrag fr = false) :
    lastRoundWinner m fr = none := by
  by_cases hp1 : fr.commitP1 ≠ ZERO_BYTES32 <;>
    by_cases hp2 : fr.commitP2 ≠ ZERO_BYTES32 <;>
    by_cases hc1 : fr.choiceP1 > 0 <;>
    by_cases hc2 : fr.choiceP2 > 0 <;>
    simp_all [resolvableFrag, lastRoundWinner]

/-- Claim C10: for every match whose state is not COMPLETE (WAITING, ACTIVE
or CANCELLED), `determineMatchWinner` returns `none`, regardless of win
counts or last-round fragments. -/
theorem claim_C10_resolver_null_unless_complete (m : MatchCore)
    (lr : Option LastRoundFrag) (h : m.state ≠ MatchState.COMPLETE) :
    determineMatchWinner m lr = none := by
  simp [determineMatchWinner, h]

/-- Witness for C10 at an ACTIVE match that already shows three wins. -/
theorem claim_C10_witness :
    (MatchCore.mk "0xA" "0xB" MatchState.ACTIVE 3 0).state ≠
        MatchState.COMPLETE ∧
      determineMatchWinner (MatchCore.mk "0xA" "0xB" MatchState.ACTIVE 3 0)
        none = none :=
  ⟨by decide,
    claim_C10_resolver_null_unless_complete
      (MatchCore.mk "0xA" "0xB" MatchState.ACTIVE 3 0) none (by decide)⟩

/-- Claim C3: decision order of `determineMatchWinner` on a COMPLETE match:
(1) a side with `WINS_REQUIRED` (3) recorded wins is the winner; (2) below
the threshold, if exactly one side committed in the last round that side
wins; (3) if both committed and exactly one revealed, the revealer wins;
(4) otherwise the strictly higher win count wins, and equal counts with no
resolvable fragment data yield `none`. -/
theorem claim_C3_resolver_decision_order (m : MatchCore)
    (lr : Option LastRoundFrag) (hs : m.state = MatchState.COMPLETE) :
    (m.winsP1 ≥ WINS_REQUIRED → determineMatchWinner m lr = some m.player1) ∧
    (m.winsP1 < WINS_REQUIRED → m.winsP2 ≥ WINS_REQUIRED →
      determineMatchWinner m lr = some m.player2) ∧
    (m.winsP1 < WINS_REQUIRED → m.winsP2 < WINS_REQUIRED →
      ∀ fr, lr = some fr →
        (fr.commitP1 ≠ ZERO_BYTES32 → fr.commitP2 = ZERO_BYTES32 →
          determineMatchWinner m lr = some m.player1) ∧
        (fr.commitP2 ≠ ZERO_BYTES32 → fr.commitP1 = ZERO_BYTES32 →
          determineMatchWinner m lr = some m.player2) ∧
        (fr.commitP1 ≠ ZERO_BYTES32 → fr.commitP2 ≠ ZERO_BYTES32 →
          fr.choiceP1 > 0 → fr.choiceP2 = 0 →
          determineMatchWinner m lr = some m.player1) ∧
        (fr.commitP1 ≠ ZERO_BYTES32 → fr.commitP2 ≠ ZERO_BYTES32 →
          fr.choiceP2 > 0 → fr.choiceP1 = 0 →
          determineMatchWinner m lr = some m.player2)) ∧
    (m.winsP1 < WINS_REQUIRED → m.winsP2 < WINS_REQUIRED →
      fragResolves lr = false →
        (m.winsP1 > m.winsP2 → determineMatchWinner m lr = some m.player1) ∧
        (m.winsP2 > m.winsP1 → determineMatchWinner m lr = some m.player2) ∧
        (m.winsP1 = m.winsP2 → determineMatchWinner m lr = none)) := by
  refine ⟨?_, ?_, ?_, ?_⟩
  · intro h1
    unfold determineMatchWinner
    rw [if_neg (by simp [hs]), if_pos h1]
  · intro h1 h2
    unfold determineMatchWinner
    rw [if_neg (by simp [hs]), if_neg (by omega), if_pos h2]
  · intro h1 h2 fr hlr
    subst hlr
    have hred : determineMatchWinner m (some fr) =
        (lastRoundWinner m fr).orElse fun _ => fallbackWinner m := by
      unfold determineMatchWinner
      rw [if_neg (by simp [hs]), if_neg (by omega), if_neg (by omega)]
    refine ⟨?_, ?_, ?_, ?_⟩
    · intro hc1 hc2
      rw [hred]
      simp [lastRoundWinner, hc1, hc2, Option.orElse]
    · intro hc1 hc2
      rw [hred]
      simp [lastRoundWinner, hc1, hc2, Option.orElse]
    · intro hc1 hc2 hr1 hr2
      rw [hred]
      simp [lastRoundWinner, hc1, hc2, hr1, hr2, Option.orElse]
    · intro hc1 hc2 hr1 hr2
      rw [hred]
      simp [lastRoundWinner, hc1, hc2, hr1, hr2, Option.orElse]
  · intro h1 h2 hres
    have hfall : determineMatchWinner m lr = fallbackWinner m := by
      cases lr with
      | none =>
        unfold determineMatchWinner
        rw [if_neg (by simp [hs]), if_neg (by omega), if_neg (by omega)]
      | some fr =>
        have hnone := lastRoundWinner_none_of_not_resolvable m fr
          (by simpa [fragResolves] using hres)
        unfold determineMatchWinner
        rw [if_neg (by simp [hs]), if_neg (by omega), if_neg (by omega)]
        simp [hnone, Option.orElse]
    refine ⟨?_, ?_, ?_⟩ <;> intro hw <;> rw [hfall] <;> unfold fallbackWinner
    · rw [if_pos hw]
    · rw [if_neg (by omega), if_pos hw]
    · rw [if_neg (by omega), if_neg (by omega)]

/-- Witness for C3 at a COMPLETE match decided by a reveal-phase forfeit:
both committed in the last round, only player 2 revealed. -/
theorem claim_C3_witness :
    (MatchCore.mk "0xA" "0xB" MatchState.COMPLETE 1 1).state =
        MatchState.COMPLETE ∧
      determineMatchWinner (MatchCore.mk "0xA" "0xB" MatchState.COMPLETE 1 1)
        (some (LastRoundFrag.mk "0xc1" "0xc2" 0 2)) = some "0xB" := by
  refine ⟨rfl, ?_⟩
  have h := (claim_C3_resolver_decision_order
    (MatchCore.mk "0xA" "0xB" MatchState.COMPLETE 1 1)
    (some (LastRoundFrag.mk "0xc1" "0xc2" 0 2)) rfl).2.2.1 (by decide)
    (by decide) (LastRoundFrag.mk "0xc1" "0xc2" 0 2) rfl
  exact h.2.2.2 (by decide) (by decide) (by decide) (by decide)

/-- Claim C1: for a COMPLETE match, `playMatch` finalizes through the
COMPLETE branch and the computed win decision is
`claimedTimeout OR myWins > opponentWins`: a local timeout claim forces
"won" regardless of the recorded score, and without one "won" holds
exactly when the local win count strictly exceeds the opponent's. -/
theorem claim_C1_win_decision (selfAddr : String) (matchId : Nat)
    (isPlayer1 : Bool) (claimedTimeout : Bool)
    (roundResults : List RoundResult)
    (getRoundAt : Nat → Option RoundSnapshot) (m : MatchSnapshot)
    (hs : m.state = MatchState.COMPLETE) :
    playMatchTerminal selfAddr matchId isPlayer1 claimedTimeout roundResults
        getRoundAt m =
      some (finalizeComplete selfAddr matchId isPlayer1 claimedTimeout m
        getRoundAt) ∧
    ((finalizeComplete selfAddr matchId isPlayer1 claimedTimeout m
        getRoundAt).won = true ↔
      claimedTimeout = true ∨
        (if isPlayer1 then m.winsP1 else m.winsP2) >
          (if isPlayer1 then m.winsP2 else m.winsP1)) := by
  constructor
  · simp [playMatchTerminal, hs]
  · simp [finalizeComplete, Bool.or_eq_true, decide_eq_true_iff]

/-- Witness for C1: a 0-0 COMPLETE match, local side player 2, timeout
claimed — the decision is "won". -/
theorem claim_C1_witness :
    (MatchSnapshot.mk "0xA" "0xB" 1000000 2000000 MatchState.COMPLETE 0 0 1
        0 0).state = MatchState.COMPLETE ∧
      (finalizeComplete "0xb" 7 false true
        (MatchSnapshot.mk "0xA" "0xB" 1000000 2000000 MatchState.COMPLETE 0 0
          1 0 0) (fun _ => none)).won = true :=
  ⟨rfl,
    ((claim_C1_win_decision "0xb" 7 false true []
      (fun _ => none)
      (MatchSnapshot.mk "0xA" "0xB" 1000000 2000000 MatchState.COMPLETE 0 0 1
        0 0) rfl).2).mpr (Or.inl rfl)⟩

/-- Claim C9: on a CANCELLED match `playMatch` returns, without error, a
zero-score outcome whose rendered prize amount is zero ("0.00", carrying
the source's " USDC (refunded)" unit suffix). -/
theorem claim_C9_cancelled_outcome (selfAddr : String) (matchId : Nat)
    (isPlayer1 : Bool) (claimedTimeout : Bool)
    (roundResults : List RoundResult)
    (getRoundAt : Nat → Option RoundSnapshot) (m : MatchSnapshot)
    (hc : m.state = MatchState.CANCELLED) :
    playMatchTerminal selfAddr matchId isPlayer1 claimedTimeout roundResults
        getRoundAt m =
      some (cancelledResult matchId roundResults) ∧
    (cancelledResult matchId roundResults).won = false ∧
    (cancelledResult matchId roundResults).score = Score.mk 0 0 ∧
    (cancelledResult matchId roundResults).prize = "0.00 USDC (refunded)" ∧
    (cancelledResult matchId roundResults).prize =
      "0.00" ++ " USDC (refunded)" := by
  refine ⟨?_, rfl, rfl, rfl, rfl⟩
  simp [playMatchTerminal, hc]

/-- Witness for C9 at a concrete cancelled match. -/
theorem claim_C9_witness :
    (MatchSnapshot.mk "0xA" "0xB" 1000000 1000000 MatchState.CANCELLED 0 0 0
        0 0).state = MatchState.CANCELLED ∧
      playMatchTerminal "0xa" 9 true false [] (fun _ => none)
        (MatchSnapshot.mk "0xA" "0xB" 1000000 1000000 MatchState.CANCELLED 0
          0 0 0 0) = some (cancelledResult 9 []) :=
  ⟨rfl,
    (claim_C9_cancelled_outcome "0xa" 9 true false [] (fun _ => none)
      (MatchSnapshot.mk "0xA" "0xB" 1000000 1000000 MatchState.CANCELLED 0 0
        0 0 0) rfl).1⟩

/-- The round numbers kept by the rebuild loop are exactly the kept indices
of the visited list, in the same order. -/
theorem map_round_filterMap (selfAddr : String) (isPlayer1 : Bool)
    (getRoundAt : Nat → Option RoundSnapshot) (l : List Nat) :
    ((l.filterMap (roundEntry selfAddr isPlayer1 getRoundAt)).map
        (fun e => e.round)) =
      l.filter (keptRound getRoundAt) := by
  induction l with
  | nil => rfl
  | cons x xs ih =>
    simp only [List.filterMap_cons, List.filter_cons]
    cases hg : getRoundAt x with
    | none => simp [roundEntry, keptRound, hg, ih]
    | some rd =>
      by_cases hk : rd.choiceP1 > 0 ∧ rd.choiceP2 > 0
      · simp [roundEntry, keptRound, hg, hk, ih]
      · simp [roundEntry, keptRound, hg, hk, ih]

/-- Claim C7: the reconstructed history of a COMPLETE match visits rounds
1..N in ascending order and keeps exactly those whose snapshot shows both
revealed choices non-None; if round N itself was never completed the
history is strictly shorter than N. -/
theorem claim_C7_round_history (selfAddr : String) (isPlayer1 : Bool)
    (getRoundAt : Nat → Option RoundSnapshot) (N : Nat) (h1 : 1 ≤ N)
    (h2 : keptRound getRoundAt N = false) :
    ((buildFullRounds selfAddr isPlayer1 getRoundAt N).map
        (fun e => e.round)) =
      (List.range' 1 N).filter (keptRound getRoundAt) ∧
    (buildFullRounds selfAddr isPlayer1 getRoundAt N).length < N := by
  have hmap := map_round_filterMap selfAddr isPlayer1 getRoundAt
    (List.range' 1 N)
  refine ⟨hmap, ?_⟩
  have hlen : (buildFullRounds selfAddr isPlayer1 getRoundAt N).length =
      ((List.range' 1 N).filter (keptRound getRoundAt)).length := by
    unfold buildFullRounds
    rw [← hmap, List.length_map]
  rw [hlen]
  have hmem : N ∈ List.range' 1 N := List.mem_range'_1.mpr ⟨h1, by omega⟩
  have hlt : ((List.range' 1 N).filter (keptRound getRoundAt)).length <
      (List.range' 1 N).length :=
    List.length_filter_lt_length_iff_exists.mpr ⟨N, hmem, by simp [h2]⟩
  calc ((List.range' 1 N).filter (keptRound getRoundAt)).length
      < (List.range' 1 N).length := hlt
    _ = N := List.length_range' ..

/-- Witness for C7: a two-round match whose second round never completed;
the rebuilt history is `[round 1]`, of length 1 < 2. -/
theorem claim_C7_witness :
    keptRound
        (fun r => if r = 1 then
          some (RoundSnapshot.mk "0xc1" "0xc2" 1 2 RoundPhase.COMPLETE 0 "0xB")
          else if r = 2 then
          some (RoundSnapshot.mk "0xc1" "0xc2" 0 0 RoundPhase.COMMIT 100
            ZERO_ADDRESS)
          else none) 2 = false ∧
      (buildFullRounds "0xa" true
        (fun r => if r = 1 then
          some (RoundSnapshot.mk "0xc1" "0xc2" 1 2 RoundPhase.COMPLETE 0 "0xB")
          else if r = 2 then
          some (RoundSnapshot.mk "0xc1" "0xc2" 0 0 RoundPhase.COMMIT 100
            ZERO_ADDRESS)
          else none) 2).length < 2 :=
  ⟨rfl,
    (claim_C7_round_history "0xa" true
      (fun r => if r = 1 then
        some (RoundSnapshot.mk "0xc1" "0xc2" 1 2 RoundPhase.COMPLETE 0 "0xB")
        else if r = 2 then
        some (RoundSnapshot.mk "0xc1" "0xc2" 0 0 RoundPhase.COMMIT 100
          ZERO_ADDRESS)
        else none) 2 (by decide) rfl).2⟩

/-- Claim C4: commit never overwrites a stored secret: after a first commit
stores `(c₁, f₁)` for a key, a second commit for the same key with a
different choice and fresh randomness leaves the store unchanged, uses the
stored pair verbatim for its commitment, and subsequent reads still yield
the first pair. -/
theorem claim_C4_commit_idempotent (keccak : List Nat → Nat)
    (store : SecretStore) (key : String) (c₁ f₁ c₂ f₂ : Nat)
    (h : store key = none) :
    (commitStep keccak store key c₁ f₁).store key = some ⟨c₁, f₁⟩ ∧
    (commitStep keccak (commitStep keccak store key c₁ f₁).store key c₂
      f₂).store = (commitStep keccak store key c₁ f₁).store ∧
    (commitStep keccak (commitStep keccak store key c₁ f₁).store key c₂
      f₂).usedChoice = c₁ ∧
    (commitStep keccak (commitStep keccak store key c₁ f₁).store key c₂
      f₂).usedSecret = f₁ ∧
    (commitStep keccak (commitStep keccak store key c₁ f₁).store key c₂
      f₂).store key = some ⟨c₁, f₁⟩ := by
  have h1 : (commitStep keccak store key c₁ f₁).store key = some ⟨c₁, f₁⟩ := by
    simp [commitStep, h, setSecret]
  refine ⟨h1, ?_, ?_, ?_, ?_⟩ <;> simp [commitStep, h, setSecret]

/-- Witness for C4: a fresh store, then two commits with different pairs. -/
theorem claim_C4_witness :
    (fun _ : String => (none : Option StoredSecret)) (mkKey 1 2 3) = none ∧
      (commitStep (fun l => l.length) (fun _ => none) (mkKey 1 2 3) 1
        5).store (mkKey 1 2 3) = some ⟨1, 5⟩ :=
  ⟨rfl,
    (claim_C4_commit_idempotent (fun l => l.length) (fun _ => none)
      (mkKey 1 2 3) 1 5 2 7 rfl).1⟩

/-- Claim C5: a reveal with no stored secret for the key fails fatally
before any ledger write is attempted, leaving the store unchanged —
whatever the network would have answered. -/
theorem claim_C5_reveal_requires_secret (store : SecretStore) (key : String)
    (net : NetResult) (h : store key = none) :
    revealStep store key net =
      { callMade := false, ok := false, store := store } := by
  simp [revealStep, h]

/-- Witness for C5 at an empty store. -/
theorem claim_C5_witness :
    (fun _ : String => (none : Option StoredSecret)) (mkKey 1 2 3) = none ∧
      (revealStep (fun _ => none) (mkKey 1 2 3) NetResult.success).callMade =
        false :=
  ⟨rfl, by
    rw [claim_C5_reveal_requires_secret (fun _ => none) (mkKey 1 2 3)
      NetResult.success rfl]⟩

/-- Claim C6: the stored secret survives every reveal that throws or whose
receipt reports non-success, and is deleted exactly on the confirmed
success path (other keys untouched). -/
theorem claim_C6_delete_only_on_success (store : SecretStore) (key : String)
    (s : StoredSecret) (net : NetResult) (h : store key = some s) :
    (net ≠ NetResult.success →
      (revealStep store key net).store = store ∧
      (revealStep store key net).ok = false) ∧
    (net = NetResult.success →
      (revealStep store key net).store key = none ∧
      (revealStep store key net).ok = true ∧
      ∀ k, k ≠ key → (revealStep store key net).store k = store k) := by
  constructor
  · intro hne
    cases net with
    | threw => simp [revealStep, h]
    | failed => simp [revealStep, h]
    | success => exact absurd rfl hne
  · intro he
    subst he
    refine ⟨?_, ?_, ?_⟩
    · simp [revealStep, h, delSecret]
    · simp [revealStep, h]
    · intro k hk
      simp [revealStep, h, delSecret, hk]

/-- Witness for C6: a failed receipt leaves the stored secret in place. -/
theorem claim_C6_witness :
    (fun k : String => if k = mkKey 1 2 3 then some (StoredSecret.mk 1 5)
        else none) (mkKey 1 2 3) = some (StoredSecret.mk 1 5) ∧
      (revealStep
        (fun k => if k = mkKey 1 2 3 then some (StoredSecret.mk 1 5)
          else none) (mkKey 1 2 3) NetResult.failed).store =
        (fun k => if k = mkKey 1 2 3 then some (StoredSecret.mk 1 5)
          else none) :=
  ⟨by simp,
    ((claim_C6_delete_only_on_success
      (fun k => if k = mkKey 1 2 3 then some (StoredSecret.mk 1 5) else none)
      (mkKey 1 2 3) (StoredSecret.mk 1 5) NetResult.failed (by simp)).1
      (by simp)).1⟩

/-- Fixed-width big-endian expansion always yields exactly `n` bytes. -/
theorem length_beBytes (n : Nat) : ∀ v, (beBytes n v).length = n := by
  induction n with
  | zero => intro v; rfl
  | succ n ih => intro v; simp [beBytes, ih]

/-- Every byte of the expansion is below 256. -/
theorem beBytes_lt (n : Nat) : ∀ v, ∀ b ∈ beBytes n v, b < 256 := by
  induction n with
  | zero => intro v b hb; simp [beBytes] at hb
  | succ n ih =>
    intro v b hb
    simp only [beBytes, List.mem_append, List.mem_singleton] at hb
    rcases hb with hb | hb
    · exact ih _ b hb
    · subst hb; exact Nat.mod_lt _ (by norm_num)

/-- Big-endian recomposition inverts the expansion modulo `256 ^ n`. -/
theorem bytesToNat_beBytes (n : Nat) : ∀ v,
    bytesToNat (beBytes n v) = v % 256 ^ n := by
  induction n with
  | zero => intro v; simp [beBytes, bytesToNat, Nat.mod_one]
  | succ n ih =>
    intro v
    unfold beBytes
    unfold bytesToNat
    rw [List.foldl_append]
    show bytesToNat (beBytes n (v / 256)) * 256 + v % 256 = v % 256 ^ (n + 1)
    rw [ih, pow_succ, mul_comm ((256 : Nat) ^ n) 256, Nat.mod_mul]
    ring

/-- Claim C8: the commitment hash submitted by `commit` is Keccak-256 over
the tight byte-packing of the 8-bit choice code followed by the 32-byte
blinding value: both commit branches hash exactly
`encodePackedUint8Bytes32`, whose output is 33 bytes — the choice byte
first, then a big-endian 32-byte image of the blinding value from which the
value is exactly recoverable. -/
theorem claim_C8_commitment_packing (keccak : List Nat → Nat)
    (store : SecretStore) (key : String) (choice fresh : Nat) :
    ((commitStep keccak store key choice fresh).commitment =
      keccak (encodePackedUint8Bytes32
        (commitStep keccak store key choice fresh).usedChoice
        (commitStep keccak store key choice fresh).usedSecret)) ∧
    ∀ c s : Nat, c < 256 → s < 2 ^ 256 →
      encodePackedUint8Bytes32 c s = c :: beBytes 32 s ∧
      (encodePackedUint8Bytes32 c s).length = 33 ∧
      bytesToNat ((encodePackedUint8Bytes32 c s).tail) = s ∧
      (encodePackedUint8Bytes32 c s).head? = some c ∧
      ∀ b ∈ encodePackedUint8Bytes32 c s, b < 256 := by
  constructor
  · cases hst : store key <;> simp [commitStep, hst]
  · intro c s hc hs2
    have hmod : c % 256 = c := Nat.mod_eq_of_lt hc
    have hpow : (256 : Nat) ^ 32 = 2 ^ 256 := by norm_num
    refine ⟨?_, ?_, ?_, ?_, ?_⟩
    · simp [encodePackedUint8Bytes32, hmod]
    · simp [encodePackedUint8Bytes32, length_beBytes]
    · simp only [encodePackedUint8Bytes32, List.tail_cons]
      rw [bytesToNat_beBytes, hpow]
      exact Nat.mod_eq_of_lt hs2
    · simp [encodePackedUint8Bytes32, hmod]
    · intro b hb
      simp only [encodePackedUint8Bytes32, List.mem_cons] at hb
      rcases hb with hb | hb
      · subst hb; exact Nat.mod_lt _ (by norm_num)
      · exact beBytes_lt 32 s b hb

/-- Witness for C8 at choice code 2 (Paper) and blinding value 5. -/
theorem claim_C8_witness :
    encodePackedUint8Bytes32 2 5 = 2 :: beBytes 32 5 ∧
      (encodePackedUint8Bytes32 2 5).length = 33 ∧
      bytesToNat ((encodePackedUint8Bytes32 2 5).tail) = 5 ∧
      (encodePackedUint8Bytes32 2 5).head? = some 2 ∧
      ∀ b ∈ encodePackedUint8Bytes32 2 5, b < 256 :=
  (claim_C8_commitment_packing (fun l => l.length) (fun _ => none) "k" 2
    5).2 2 5 (by decide) (by decide)

/-- Counterexample to claim C2 as stated: at a concrete poll iteration the
deadline is 100, the ledger timestamp is 101 — within the 5-second grace
window this repository uses elsewhere — and the opponent's commitment is
present, yet `waitForPhase` decides to claim a timeout.  The code compares
`block.timestamp > phaseDeadline` with no grace margin and never inspects
the opponent's commitment or revealed choice. -/
theorem claim_C2_counterexample :
    waitForPhaseStep
        (MatchSnapshot.mk "0xA" "0xB" 1000000 2000000 MatchState.ACTIVE 0 0 1
          0 0)
        (RoundSnapshot.mk "0xc1" "0xc2" 0 0 RoundPhase.COMMIT 100
          ZERO_ADDRESS) 101 RoundPhase.REVEAL = WaitAction.claimTimeout ∧
      (RoundSnapshot.mk "0xc1" "0xc2" 0 0 RoundPhase.COMMIT 100
        ZERO_ADDRESS).commitP2 ≠ ZERO_BYTES32 ∧
      101 ≤ (RoundSnapshot.mk "0xc1" "0xc2" 0 0 RoundPhase.COMMIT 100
        ZERO_ADDRESS).phaseDeadline + 5 := by
  decide

/-- Amended claim C2: in `waitForPhase`, a timeout claim is attempted
exactly when the match is still live, the round phase differs from the
target, the phase deadline is nonzero, and the ledger block timestamp
strictly exceeds the deadline; no grace margin is added to the deadline and
the absence of the opponent's action is not checked. -/
theorem claim_C2_amended_timeout_condition (m : MatchSnapshot)
    (round : RoundSnapshot) (blockTimestamp : Nat)
    (targetPhase : RoundPhase) :
    waitForPhaseStep m round blockTimestamp targetPhase =
        WaitAction.claimTimeout ↔
      m.state ≠ MatchState.COMPLETE ∧ m.state ≠ MatchState.CANCELLED ∧
        round.phase ≠ targetPhase ∧ 0 < round.phaseDeadline ∧
        round.phaseDeadline < blockTimestamp := by
  unfold waitForPhaseStep
  split_ifs with h1 h2 h3 <;> simp_all
  tauto

end RPS
